import Mathlib

/-!
Shallow embedding of the `tempit` execution engine
(`src/tempit/core.py` and `src/tempit/utils.py`).

Modelling conventions:
* Machine floats (durations, `time_wasted`) are modelled as rationals `ℚ`;
  all wall-clock measurements are opaque environment-supplied values.
* A call of the wrapped target is modelled as `ℕ → Except ε α`: the outcome
  (return value or raised exception) of the target's `i`-th invocation.
  A deterministic target is the constant function.
* Python exceptions are `Except.error`; a propagating exception is an
  `Except.error` result.  `run_func_concurrency` converts every internal
  failure into the single retryable `RuntimeError`, modelled as
  `Except.error ()` of a separate error type `Unit`, so a backend failure is
  distinguished by type from a user exception `ε`.
* The function identity stored on the recursion stack (`deque[Callable]`,
  compared with `==`, i.e. object identity) is modelled as a `FuncId := ℕ`.
  The Python deque appends/pops on the right; the list here keeps the top
  (right end) at the head.
* `extract_callable_and_args_if_method` is the identity on the invoked
  callable and its arguments for a plain function (it only rewrites
  `args_to_print`, and rebinds receivers for classmethod/staticmethod);
  since the target model already carries its argument list applied, it is
  modelled as the identity transformation here.
* The call-time value of `TempitConfig.ACTIVE` is carried in the call
  environment as `activeNow`; the wrapper body built at decoration time
  never consults it (mirroring the source, which reads the flag only in
  `tempit` itself).
-/

namespace Tempit

abbrev FuncId := Nat

/-- Configuration fixed at decoration time: `run_times`, `concurrent_execution`, `verbose`. -/
structure Config where
  runTimes : ℤ
  concurrent : Bool
  verbose : Bool
  deriving DecidableEq

/-- Call-time environment: everything the engine observes about the outside
world during one invocation (`os.cpu_count()`, whether handing the target to
process workers raises `PicklingError`, the measured wall-clock quantities,
and the current value of the global `TempitConfig.ACTIVE` flag).
`numCores = 0` models `cpu_count()` returning `None` or `0` (falsy). -/
structure Env where
  numCores : ℕ
  pickleFails : Bool
  batchTime : ℚ
  seqDur : ℕ → ℚ
  guardElapsed : ℚ
  activeNow : Bool

/-- The per-entity shared state closed over by the decorator:
`potential_recursion_func_stack` and `time_wasted`. -/
structure GuardState where
  stack : List FuncId
  timeWasted : ℚ
  deriving DecidableEq

/-- Result of `check_is_recursive_func`: the updated `run_times`,
`concurrent_execution`, the `is_recursive` flag, the stack after the push,
and whether `warnings.warn` was executed. -/
structure GuardResult where
  runTimes : ℤ
  concurrent : Bool
  isRecursive : Bool
  stack : List FuncId
  warned : Bool
  deriving DecidableEq

/-- `core.check_is_recursive_func` (core.py:146-172): if the stack is
non-empty and its top equals `func`, push anyway, warn, and return
`(1, False, True)`; otherwise push and return the configured values. -/
def check_is_recursive_func (func : FuncId) (run_times : ℤ) (concurrent_execution : Bool)
    (stack : List FuncId) : GuardResult :=
  match stack with
  | top :: rest =>
    if top = func then
      ⟨1, false, true, func :: top :: rest, true⟩
    else
      ⟨run_times, concurrent_execution, false, func :: top :: rest, false⟩
  | [] => ⟨run_times, concurrent_execution, false, [func], false⟩

/-- `core.update_total_times` (core.py:130-143): early-return when
`time_wasted == 0`, otherwise subtract the average wasted time from each
entry, floored at `0` by `max(x - time_wasted_avg, 0)`. -/
def update_total_times (total_times : List ℚ) (time_wasted : ℚ) : List ℚ :=
  if time_wasted = 0 then total_times
  else
    total_times.map fun x => max (x - time_wasted / (total_times.length : ℚ)) 0

/-- Loop of `core.run_func_sequential` (core.py:260-266): `i` is the index of
the next call, the second argument the number of iterations left, `acc` the
`result` variable (`none` while still unbound), `times` the accumulated
duration list.  An exception from the target propagates immediately
(`some (.error e)`), discarding `acc` and `times`; `none` models the
`UnboundLocalError` of `return result` after zero iterations. -/
def seqGo (f : ℕ → Except ε α) (dur : ℕ → ℚ) :
    ℕ → ℕ → Option α → List ℚ → Option (Except ε (α × List ℚ))
  | _, 0, acc, times => acc.map fun v => Except.ok (v, times)
  | i, n + 1, _acc, times =>
    match f i with
    | .error e => some (.error e)
    | .ok v => seqGo f dur (i + 1) n (some v) (times ++ [dur i])

/-- `core.run_func_sequential` (core.py:248-267). -/
def run_func_sequential (f : ℕ → Except ε α) (dur : ℕ → ℚ) (run_times : ℕ) :
    Option (Except ε (α × List ℚ)) :=
  seqGo f dur 0 run_times none []

/-- `utils.adjust_run_times_for_parallelism` (utils.py:184-205):
`available_cpu_cores = max(1, num_cores - 1)` when `cpu_count()` is truthy;
reduce `run_times` to it when exceeded; clamp the result to at least `1`. -/
def adjust_run_times_for_parallelism (num_cores run_times : ℕ) : ℕ :=
  let rt :=
    if num_cores ≠ 0 then
      if run_times > max 1 (num_cores - 1) then max 1 (num_cores - 1) else run_times
    else run_times
  if rt ≤ 1 then 1 else rt

/-- Condition under which `adjust_run_times_for_parallelism` executes
`warnings.warn` (utils.py:199-201). -/
def adjust_warns (num_cores run_times : ℕ) : Bool :=
  if num_cores ≠ 0 then
    if run_times > max 1 (num_cores - 1) then true else false
  else false

/-- Whether any of the `rt` concurrent replicas raised (joblib re-raises the
first worker exception, caught by `except Exception` in
`run_func_concurrency`). -/
def hasReplicaFailure (g : ℕ → Except ε α) (rt : ℕ) : Bool :=
  (List.range rt).any fun i =>
    match g i with
    | .error _ => true
    | .ok _ => false

/-- `core.run_func_concurrency` (core.py:270-327).  `g` gives the replica
outcomes of the first (process-backend) attempt, `gT` those of the
`threading` retry taken after a `PicklingError`.  Every internal failure —
replica count adjusted down to `1`, or any replica raising on the attempt
actually executed — becomes the retryable `RuntimeError`, `Except.error ()`.
On success the first replica's value is returned together with
`run_times` copies of the average per-run duration. -/
def run_func_concurrency (num_cores : ℕ) (pickle_fails : Bool) (batch_time : ℚ)
    (g gT : ℕ → Except ε α) (run_times : ℕ) : Except Unit (α × List ℚ) :=
  let rt := adjust_run_times_for_parallelism num_cores run_times
  if rt = 1 then Except.error ()
  else
    let replicas := if pickle_fails then gT else g
    if hasReplicaFailure replicas rt then Except.error ()
    else
      match replicas 0 with
      | .ok v => Except.ok (v, List.replicate rt (batch_time / (rt : ℚ)))
      | .error _ => Except.error ()

/-- `core.function_execution` (core.py:200-229): clamp `run_times < 1` to
`1`; when `run_times > 1 and concurrent_execution`, try the concurrent
runner and catch its `RuntimeError` by falling back to the sequential loop
with the (clamped) caller-configured run count; otherwise run sequentially. -/
def function_execution (env : Env) (f : ℕ → Except ε α) (run_times : ℤ)
    (concurrent_execution : Bool) : Option (Except ε (α × List ℚ)) :=
  let rt : ℕ := if run_times < 1 then 1 else run_times.toNat
  if 1 < rt ∧ concurrent_execution = true then
    match run_func_concurrency env.numCores env.pickleFails env.batchTime f f rt with
    | .ok vt => some (.ok vt)
    | .error _ => run_func_sequential f env.seqDur rt
  else
    run_func_sequential f env.seqDur rt

/-- Branch taken by `utils.print_tempit_values` (utils.py:31-34):
`run_times <= 1` prints the single-value form, otherwise the aggregate form
(`print_several_values`, which is the only caller of `stdev`). -/
inductive ReportBranch where
  | single
  | several
  deriving DecidableEq

def report_branch (run_times : ℤ) : ReportBranch :=
  if run_times ≤ 1 then ReportBranch.single else ReportBranch.several

/-- The data handed to `print_tempit_values` by the wrapper: the
`run_times_final` used for the branch decision, the verbosity flag, and the
corrected duration list (the argument of `mean`/`stdev`/...). -/
structure ReportData where
  runTimes : ℤ
  verbose : Bool
  times : List ℚ
  deriving DecidableEq

/-- Observable outcome of one invocation of `tempit_wrapper`: the value
returned (or exception propagated) to the caller, the recursion stack and
`time_wasted` accumulator after the call, the report printed (if any), and
whether the recursion advisory warning fired. -/
structure CallOutcome (ε α : Type) where
  result : Option (Except ε α)
  stack : List FuncId
  timeWasted : ℚ
  report : Option ReportData
  warned : Bool

/-- `core.tempit_wrapper` (core.py:79-121), one invocation from pre-state
`st`.  Faithful to the source's control flow: there is no try/finally, so on
the paths where the target (or the sequential fallback) raises, the
`potential_recursion_func_stack.pop()` of lines 94/107 is never executed and
the pushed frame stays on the stack. -/
def tempit_wrapper (env : Env) (func : FuncId) (cfg : Config)
    (f : ℕ → Except ε α) (st : GuardState) : CallOutcome ε α :=
  let g := check_is_recursive_func func cfg.runTimes cfg.concurrent st.stack
  if g.isRecursive = true then
    let tw := st.timeWasted + env.guardElapsed
    match f 0 with
    | .error e => ⟨some (.error e), g.stack, tw, none, g.warned⟩
    | .ok v => ⟨some (.ok v), g.stack.tail, tw, none, g.warned⟩
  else
    match function_execution env f g.runTimes g.concurrent with
    | none => ⟨none, g.stack, st.timeWasted, none, g.warned⟩
    | some (.error e) => ⟨some (.error e), g.stack, st.timeWasted, none, g.warned⟩
    | some (.ok (v, times)) =>
      let times2 := update_total_times times st.timeWasted
      let stack2 := g.stack.tail
      ⟨some (.ok v), stack2, st.timeWasted,
        if stack2.isEmpty then some ⟨g.runTimes, cfg.verbose, times2⟩ else none,
        g.warned⟩

/-- What `tempit` returns for one callable: the original object unmodified,
or the instrumentation wrapper closure. -/
inductive Decorated (ε α : Type) where
  | original (f : ℕ → Except ε α)
  | wrapped (func : FuncId) (cfg : Config) (f : ℕ → Except ε α)

/-- `core.tempit` (core.py:16-127) restricted to decorating one callable:
when `TempitConfig.ACTIVE` is false at decoration time the callable is
returned unmodified (core.py:59-64); classes are returned unmodified
(core.py:70-72); otherwise the wrapper closure is built. -/
def tempit (active : Bool) (isClass : Bool) (func : FuncId) (cfg : Config)
    (f : ℕ → Except ε α) : Decorated ε α :=
  if active = false then Decorated.original f
  else if isClass = true then Decorated.original f
  else Decorated.wrapped func cfg f

/-- Python's round-half-to-even used by `format(x, ".nf")`, on exact
rationals. -/
def roundHalfEven (q : ℚ) : ℤ :=
  let fl := ⌊q⌋
  let r := q - (fl : ℚ)
  if r < 1 / 2 then fl
  else if 1 / 2 < r then fl + 1
  else if fl % 2 = 0 then fl else fl + 1

/-- Decimal rendering of a natural number, zero-padded on the left to
`width` characters (Python's `{n:0Nd}` / the integer part of `{x:0N.0f}`). -/
def natPad (n width : ℕ) : String :=
  let s := toString n
  String.mk (List.replicate (width - s.length) '0') ++ s

/-- Digit layer of fixed-point rendering: `n` is the value scaled by
`10 ^ prec` and already rounded to an integer. -/
def formatFixedNat (n prec : ℕ) : String :=
  if prec = 0 then toString (n / 10 ^ prec)
  else toString (n / 10 ^ prec) ++ "." ++ natPad (n % 10 ^ prec) prec

/-- Python `f"{x:.precf}"` for non-negative `x`: fixed-point with `prec`
decimals, round-half-even; `prec = 0` prints no decimal point. -/
def formatFixed (x : ℚ) (prec : ℕ) : String :=
  formatFixedNat (roundHalfEven (x * (10 : ℚ) ^ prec)).toNat prec

/-- The `{seconds:02.0f}s.{ms:.0f}ms` tail shared by the minutes, hours and
days tiers of `format_time`, where `ms = seconds % 1 * 1000`. -/
def secondsPart (seconds : ℚ) : String :=
  natPad (roundHalfEven seconds).toNat 2 ++ "s." ++
    formatFixed ((seconds - (⌊seconds⌋ : ℚ)) * 1000) 0 ++ "ms"

/-- `utils.format_time` (utils.py:110-147), with floats as rationals.
Python's `%` on non-negative floats is `x - m * ⌊x / m⌋`, and
`int(x // m)` is `⌊x / m⌋`. -/
def format_time (total_time : ℚ) : String :=
  if total_time < 1 / 1000 then
    formatFixed (total_time * 1000000) 4 ++ "µs"
  else if total_time < 1 / 10 then
    formatFixed (total_time * 1000) 4 ++ "ms"
  else if total_time < 1 then
    formatFixed total_time 3 ++ "s"
  else if total_time < 60 then
    formatFixed total_time 2 ++ "s"
  else if total_time < 3600 then
    natPad (⌊total_time / 60⌋).toNat 2 ++ "m:" ++
      secondsPart (total_time - 60 * (⌊total_time / 60⌋ : ℚ))
  else if total_time < 86400 then
    natPad (⌊total_time / 3600⌋).toNat 2 ++ "h:" ++
      natPad (⌊(total_time - 3600 * (⌊total_time / 3600⌋ : ℚ)) / 60⌋).toNat 2 ++ "m:" ++
      secondsPart ((total_time - 3600 * (⌊total_time / 3600⌋ : ℚ)) -
        60 * (⌊(total_time - 3600 * (⌊total_time / 3600⌋ : ℚ)) / 60⌋ : ℚ))
  else
    toString (⌊total_time / 86400⌋).toNat ++ "d:" ++
      natPad (⌊(total_time - 86400 * (⌊total_time / 86400⌋ : ℚ)) / 3600⌋).toNat 2 ++ "h:" ++
      natPad (⌊((total_time - 86400 * (⌊total_time / 86400⌋ : ℚ)) -
          3600 * (⌊(total_time - 86400 * (⌊total_time / 86400⌋ : ℚ)) / 3600⌋ : ℚ)) /
          60⌋).toNat 2 ++ "m:" ++
      secondsPart (((total_time - 86400 * (⌊total_time / 86400⌋ : ℚ)) -
          3600 * (⌊(total_time - 86400 * (⌊total_time / 86400⌋ : ℚ)) / 3600⌋ : ℚ)) -
        60 * (⌊((total_time - 86400 * (⌊total_time / 86400⌋ : ℚ)) -
          3600 * (⌊(total_time - 86400 * (⌊total_time / 86400⌋ : ℚ)) / 3600⌋ : ℚ)) / 60⌋ : ℚ))

/-! ### Helper lemmas -/

lemma seqGo_const_error (e : ε) (dur : ℕ → ℚ) (n i : ℕ) (acc : Option α) (times : List ℚ) :
    seqGo (fun _ => (Except.error e : Except ε α)) dur i (n + 1) acc times =
      some (Except.error e) := by
  simp [seqGo]

lemma seqGo_const_ok (v : α) (dur : ℕ → ℚ) :
    ∀ (n i : ℕ) (acc : Option α) (times : List ℚ),
      seqGo (fun _ => (Except.ok v : Except ε α)) dur i (n + 1) acc times =
        some (Except.ok (v, times ++ (List.range' i (n + 1)).map dur)) := by
  intro n
  induction n with
  | zero => intro i acc times; simp [seqGo, List.range']
  | succ n ih =>
    intro i acc times
    have step : seqGo (fun _ => (Except.ok v : Except ε α)) dur i (n + 1 + 1) acc times =
        seqGo (fun _ => (Except.ok v : Except ε α)) dur (i + 1) (n + 1) (some v)
          (times ++ [dur i]) := rfl
    rw [step, ih]
    simp [List.range', List.append_assoc]

lemma seqGo_length (f : ℕ → Except ε α) (dur : ℕ → ℚ) :
    ∀ (n i : ℕ) (acc : Option α) (times : List ℚ) (v : α) (ts : List ℚ),
      seqGo f dur i n acc times = some (Except.ok (v, ts)) →
      ts.length = times.length + n := by
  intro n
  induction n with
  | zero =>
    intro i acc times v ts h
    cases acc with
    | none => simp [seqGo] at h
    | some w =>
      simp only [seqGo, Option.map_some, Option.some.injEq, Except.ok.injEq,
        Prod.mk.injEq] at h
      obtain ⟨-, rfl⟩ := h
      simp
  | succ n ih =>
    intro i acc times v ts h
    cases hf : f i with
    | error e => simp [seqGo, hf] at h
    | ok w =>
      simp only [seqGo, hf] at h
      have := ih (i + 1) (some w) (times ++ [dur i]) v ts h
      simp [List.length_append] at this
      omega

lemma seqGo_all_ok (f : ℕ → Except ε α) (dur : ℕ → ℚ) :
    ∀ (n i : ℕ) (acc : Option α) (times : List ℚ),
      (∀ j, j < n + 1 → ∃ v, f (i + j) = Except.ok v) →
      ∃ w, f (i + n) = Except.ok w ∧
        seqGo f dur i (n + 1) acc times =
          some (Except.ok (w, times ++ (List.range' i (n + 1)).map dur)) := by
  intro n
  induction n with
  | zero =>
    intro i acc times h
    obtain ⟨v, hv⟩ := h 0 (by omega)
    rw [Nat.add_zero] at hv
    exact ⟨v, hv, by simp [seqGo, hv, List.range']⟩
  | succ n ih =>
    intro i acc times h
    obtain ⟨v, hv⟩ := h 0 (by omega)
    rw [Nat.add_zero] at hv
    have hshift : ∀ j, j < n + 1 → ∃ w, f (i + 1 + j) = Except.ok w := by
      intro j hj
      have harith : i + 1 + j = i + (j + 1) := by omega
      rw [harith]
      exact h (j + 1) (by omega)
    obtain ⟨w, hw, hrun⟩ := ih (i + 1) (some v) (times ++ [dur i]) hshift
    refine ⟨w, ?_, ?_⟩
    · have harith : i + 1 + n = i + (n + 1) := by omega
      rw [← harith]
      exact hw
    · have step : seqGo f dur i (n + 1 + 1) acc times =
          seqGo f dur (i + 1) (n + 1) (some v) (times ++ [dur i]) := by
        conv_lhs => rw [seqGo]
        rw [hv]
      rw [step, hrun]
      simp [List.range', List.append_assoc]

lemma seqGo_first_error (f : ℕ → Except ε α) (dur : ℕ → ℚ) (e : ε) :
    ∀ (k n i : ℕ) (acc : Option α) (times : List ℚ),
      k < n →
      (∀ j, j < k → ∃ v, f (i + j) = Except.ok v) →
      f (i + k) = Except.error e →
      seqGo f dur i n acc times = some (Except.error e) := by
  intro k
  induction k with
  | zero =>
    intro n i acc times hk _ he
    rw [Nat.add_zero] at he
    cases n with
    | zero => omega
    | succ n => simp [seqGo, he]
  | succ k ih =>
    intro n i acc times hk h he
    cases n with
    | zero => omega
    | succ n =>
      obtain ⟨v, hv⟩ := h 0 (by omega)
      rw [Nat.add_zero] at hv
      have he' : f (i + 1 + k) = Except.error e := by
        have harith : i + 1 + k = i + (k + 1) := by omega
        rw [harith]
        exact he
      have h' : ∀ j, j < k → ∃ v, f (i + 1 + j) = Except.ok v := by
        intro j hj
        have harith : i + 1 + j = i + (j + 1) := by omega
        rw [harith]
        exact h (j + 1) (by omega)
      have step : seqGo f dur i (n + 1) acc times =
          seqGo f dur (i + 1) n (some v) (times ++ [dur i]) := by
        conv_lhs => rw [seqGo]
        rw [hv]
      rw [step]
      exact ih n (i + 1) (some v) (times ++ [dur i]) (by omega) h' he'

lemma adjust_pos (nc rt : ℕ) : 1 ≤ adjust_run_times_for_parallelism nc rt := by
  dsimp [adjust_run_times_for_parallelism]
  split_ifs <;> omega

lemma hasReplicaFailure_const_error (e : ε) (rt : ℕ) (h : 0 < rt) :
    hasReplicaFailure (fun _ => (Except.error e : Except ε α)) rt = true := by
  have h0 : (0 : ℕ) ∈ List.range rt := List.mem_range.mpr h
  unfold hasReplicaFailure
  rw [List.any_eq_true]
  exact ⟨0, h0, rfl⟩

lemma hasReplicaFailure_const_ok (v : α) (rt : ℕ) :
    hasReplicaFailure (fun _ => (Except.ok v : Except ε α)) rt = false := by
  simp [hasReplicaFailure]

lemma conc_const_error (nc : ℕ) (pf : Bool) (bt : ℚ) (e : ε) (rt : ℕ) :
    run_func_concurrency nc pf bt (fun _ => (Except.error e : Except ε α))
      (fun _ => Except.error e) rt = Except.error () := by
  dsimp [run_func_concurrency]
  by_cases h1 : adjust_run_times_for_parallelism nc rt = 1
  · simp [h1]
  · have hpos : 0 < adjust_run_times_for_parallelism nc rt := adjust_pos nc rt
    cases pf <;>
      simp [h1, hasReplicaFailure_const_error e _ hpos]

lemma conc_const_ok (nc : ℕ) (pf : Bool) (bt : ℚ) (v : α) (rt : ℕ) :
    run_func_concurrency nc pf bt (fun _ => (Except.ok v : Except ε α))
      (fun _ => Except.ok v) rt = Except.error () ∨
    ∃ ts, run_func_concurrency nc pf bt (fun _ => (Except.ok v : Except ε α))
      (fun _ => Except.ok v) rt = Except.ok (v, ts) := by
  dsimp [run_func_concurrency]
  by_cases h1 : adjust_run_times_for_parallelism nc rt = 1
  · left
    simp [h1]
  · right
    refine ⟨List.replicate (adjust_run_times_for_parallelism nc rt)
      (bt / (adjust_run_times_for_parallelism nc rt : ℚ)), ?_⟩
    cases pf <;>
      simp [h1, hasReplicaFailure_const_ok]

lemma conc_ok_length (nc : ℕ) (pf : Bool) (bt : ℚ) (g gT : ℕ → Except ε α) (rt : ℕ)
    (v : α) (ts : List ℚ)
    (h : run_func_concurrency nc pf bt g gT rt = Except.ok (v, ts)) :
    2 ≤ ts.length := by
  dsimp [run_func_concurrency] at h
  by_cases h1 : adjust_run_times_for_parallelism nc rt = 1
  · rw [if_pos h1] at h
    exact Except.noConfusion h
  · rw [if_neg h1] at h
    have hge := adjust_pos nc rt
    split at h <;>
    · split at h
      · exact Except.noConfusion h
      · split at h
        · simp only [Except.ok.injEq, Prod.mk.injEq] at h
          obtain ⟨-, rfl⟩ := h
          simp only [List.length_replicate]
          omega
        · exact Except.noConfusion h

lemma run_func_sequential_ok_length (f : ℕ → Except ε α) (dur : ℕ → ℚ) (n : ℕ)
    (v : α) (ts : List ℚ)
    (h : run_func_sequential f dur n = some (Except.ok (v, ts))) : ts.length = n := by
  have := seqGo_length f dur n 0 none [] v ts h
  simpa using this

lemma update_total_times_length (ts : List ℚ) (w : ℚ) :
    (update_total_times ts w).length = ts.length := by
  dsimp [update_total_times]
  split <;> simp

lemma function_execution_ok_length (env : Env) (f : ℕ → Except ε α) (rtZ : ℤ)
    (ce : Bool) (v : α) (ts : List ℚ) (h2 : 1 < rtZ)
    (h : function_execution env f rtZ ce = some (Except.ok (v, ts))) :
    2 ≤ ts.length := by
  dsimp [function_execution] at h
  have hclamp : (if rtZ < 1 then (1 : ℕ) else rtZ.toNat) = rtZ.toNat := by
    rw [if_neg]
    omega
  rw [hclamp] at h
  have hrt2 : 2 ≤ rtZ.toNat := by omega
  by_cases hc : 1 < rtZ.toNat ∧ ce = true
  · rw [if_pos hc] at h
    split at h
    · rename_i vt heq
      obtain ⟨rfl⟩ : vt = (v, ts) := by
        simpa using h
      exact conc_ok_length _ _ _ _ _ _ _ _ heq
    · have := run_func_sequential_ok_length f env.seqDur rtZ.toNat v ts h
      omega
  · rw [if_neg hc] at h
    have := run_func_sequential_ok_length f env.seqDur rtZ.toNat v ts h
    omega

lemma function_execution_const (env : Env) (c : Except ε α) (rtZ : ℤ) (ce : Bool) :
    ∃ ts, function_execution env (fun _ => c) rtZ ce =
      some (c.map fun v => (v, ts)) := by
  dsimp only [function_execution]
  obtain ⟨m, hm⟩ : ∃ m, (if rtZ < 1 then (1 : ℕ) else rtZ.toNat) = m + 1 := by
    refine ⟨(if rtZ < 1 then (1 : ℕ) else rtZ.toNat) - 1, ?_⟩
    split <;> omega
  rw [hm]
  by_cases hc : 1 < m + 1 ∧ ce = true
  · rw [if_pos hc]
    cases c with
    | error e =>
      rw [conc_const_error]
      exact ⟨[], seqGo_const_error e env.seqDur m 0 none []⟩
    | ok v =>
      rcases conc_const_ok env.numCores env.pickleFails env.batchTime v (m + 1) with
        hcc | ⟨ts, hcc⟩
      · rw [hcc]
        exact ⟨(List.range' 0 (m + 1)).map env.seqDur, seqGo_const_ok v env.seqDur m 0 none []⟩
      · rw [hcc]
        exact ⟨ts, rfl⟩
  · rw [if_neg hc]
    cases c with
    | error e => exact ⟨[], seqGo_const_error e env.seqDur m 0 none []⟩
    | ok v =>
      exact ⟨(List.range' 0 (m + 1)).map env.seqDur, seqGo_const_ok v env.seqDur m 0 none []⟩

lemma roundHalfEven_eq (q : ℚ) (n : ℤ) (h1 : (n : ℚ) ≤ q) (h2 : q - (n : ℚ) < 1 / 2) :
    roundHalfEven q = n := by
  have hfl : ⌊q⌋ = n := Int.floor_eq_iff.mpr ⟨h1, by linarith⟩
  dsimp only [roundHalfEven]
  rw [hfl, if_pos h2]

lemma formatFixed_eq (x : ℚ) (prec : ℕ) (n : ℤ)
    (h1 : (n : ℚ) ≤ x * (10 : ℚ) ^ prec)
    (h2 : x * (10 : ℚ) ^ prec - (n : ℚ) < 1 / 2) :
    formatFixed x prec = formatFixedNat n.toNat prec := by
  dsimp only [formatFixed]
  rw [roundHalfEven_eq _ n h1 h2]

lemma secondsPart_eq (s : ℚ) (n mn : ℤ) (mval : ℚ)
    (h1 : (n : ℚ) ≤ s) (h2 : s - (n : ℚ) < 1 / 2)
    (hms : (s - (n : ℚ)) * 1000 = mval)
    (hm1 : (mn : ℚ) ≤ mval) (hm2 : mval - (mn : ℚ) < 1 / 2) :
    secondsPart s = natPad n.toNat 2 ++ "s." ++ formatFixedNat mn.toNat 0 ++ "ms" := by
  have hfl : ⌊s⌋ = n := Int.floor_eq_iff.mpr ⟨h1, by linarith⟩
  dsimp only [secondsPart]
  rw [roundHalfEven_eq s n h1 h2, hfl, hms,
    formatFixed_eq mval 0 mn (by simpa using hm1) (by simpa using hm2)]

/-! ### Concrete instances used by witnesses and counterexamples -/

/-- A deterministic target that always returns `3`. -/
def fOk3 : ℕ → Except Unit ℤ := fun _ => Except.ok 3

/-- A target whose first call succeeds with `7` and whose second call raises. -/
def fC5 : ℕ → Except Unit ℤ := fun i => if i = 0 then Except.ok 7 else Except.error ()

/-- Environment with 2 execution units (so the worker budget is
`max 1 (2 - 1) = 1` and concurrency is disqualified). -/
def envTwoCores : Env := ⟨2, false, 0, fun _ => 0, 0, true⟩

/-- Environment with 4 execution units. -/
def envFourCores : Env := ⟨4, false, 0, fun _ => 0, 0, true⟩

/-- Environment where `cpu_count()` is falsy (no replica adjustment) and each
sequential run measures one time unit. -/
def envNoCores : Env := ⟨0, false, 0, fun _ => 1, 0, true⟩

/-! ### Claim theorems -/

/-- C1: decoration is transparent to the call's functional contract: for
every deterministic target `c`, every configuration and every call
environment (hence every execution path — single call, sequential loop,
concurrent runner, or fallback), the decorated call returns the value the
undecorated target returns, or propagates the exception it raises. -/
theorem decorated_call_transparent (env : Env) (func : FuncId) (cfg : Config)
    (st : GuardState) (c : Except ε α) :
    (tempit_wrapper env func cfg (fun _ => c) st).result = some c := by
  dsimp only [tempit_wrapper]
  split
  · cases c <;> rfl
  · obtain ⟨ts, hfe⟩ := function_execution_const env c
      (check_is_recursive_func func cfg.runTimes cfg.concurrent st.stack).runTimes
      (check_is_recursive_func func cfg.runTimes cfg.concurrent st.stack).concurrent
    rw [hfe]
    cases c <;> rfl

/-- C2: when the concurrent runner fails with its retryable error, the
execution selector catches it internally and the call is exactly the
sequential loop run with the clamped caller-configured run count; the
backend failure itself (of the separate error type `Unit`) never appears in
the caller-visible result. -/
theorem concurrency_error_falls_back (env : Env) (f : ℕ → Except ε α) (run_times : ℤ)
    (rt : ℕ) (hrt : rt = if run_times < 1 then 1 else run_times.toNat) (h2 : 1 < rt)
    (hfail : run_func_concurrency env.numCores env.pickleFails env.batchTime f f rt =
      Except.error ()) :
    function_execution env f run_times true = run_func_sequential f env.seqDur rt := by
  dsimp only [function_execution]
  rw [← hrt]
  rw [if_pos ⟨h2, rfl⟩]
  rw [hfail]

/-- Witness for C2: with 2 execution units the runner's replica count
collapses to 1, it raises the retryable error, and the call equals the
sequential loop with the caller-configured run count 5. -/
theorem concurrency_error_falls_back_witness :
    function_execution envTwoCores fOk3 5 true =
      run_func_sequential fOk3 envTwoCores.seqDur 5 :=
  concurrency_error_falls_back envTwoCores fOk3 5 5 (by decide) (by norm_num) rfl

/-- C3: on entry, if the recursion-guard stack is non-empty with the current
function on top, the guard still pushes a frame, warns, and returns run
count 1, concurrency false, `is_recursive` true; otherwise it pushes and
returns the configured values unchanged with `is_recursive` false and no
warning. -/
theorem check_is_recursive_func_spec (func : FuncId) (rt : ℤ) (ce : Bool)
    (stack : List FuncId) :
    (stack.head? = some func →
      check_is_recursive_func func rt ce stack = ⟨1, false, true, func :: stack, true⟩) ∧
    (stack.head? ≠ some func →
      check_is_recursive_func func rt ce stack = ⟨rt, ce, false, func :: stack, false⟩) := by
  constructor
  · intro h
    cases stack with
    | nil => simp at h
    | cons top rest =>
      simp only [List.head?_cons, Option.some.injEq] at h
      subst h
      simp [check_is_recursive_func]
  · intro h
    cases stack with
    | nil => simp [check_is_recursive_func]
    | cons top rest =>
      simp only [List.head?_cons, Ne, Option.some.injEq] at h
      simp [check_is_recursive_func, h]

/-- Witness for C3, recursive branch at a concrete stack. -/
theorem check_is_recursive_func_spec_witness :
    check_is_recursive_func 7 5 true [7] = ⟨1, false, true, [7, 7], true⟩ :=
  (check_is_recursive_func_spec 7 5 true [7]).1 rfl

/-- C4 (code bug exhibit): a decorated call whose target raises leaves its
frame on the recursion-guard stack: starting from the empty stack, after the
call the stack is `[0]`, not `[]` — `tempit_wrapper` has no try/finally, so
the `pop()` after the wrapped call is skipped on the exception path, while
the exception itself propagates unchanged. -/
theorem wrapper_leaks_stack_frame_on_exception :
    (tempit_wrapper envFourCores 0 ⟨1, false, false⟩
        (fun _ => (Except.error () : Except Unit Unit)) ⟨[], 0⟩).result =
      some (Except.error ()) ∧
    (tempit_wrapper envFourCores 0 ⟨1, false, false⟩
        (fun _ => (Except.error () : Except Unit Unit)) ⟨[], 0⟩).stack = [0] := by
  constructor <;> rfl

/-- C5 counterexample: in the sequential loop with run count 2, the first
run produces the result `7`, yet the exception of the second run propagates
— the batch does not complete with the last known good result. -/
theorem sequential_discards_prior_success :
    fC5 0 = Except.ok 7 ∧
    run_func_sequential fC5 (fun _ => (0 : ℚ)) 2 = some (Except.error ()) := by
  constructor <;> rfl

/-- C5 amended: in the sequential loop with run count `n ≥ 1`, if every run
succeeds the batch returns the last run's result with one duration per run;
and an exception raised at any run `k` (even after earlier successful runs)
propagates immediately to the caller, discarding the previously produced
results. -/
theorem run_func_sequential_spec (f : ℕ → Except ε α) (dur : ℕ → ℚ) (n : ℕ)
    (hn : 1 ≤ n) :
    ((∀ j, j < n → ∃ v, f j = Except.ok v) →
      ∃ w, f (n - 1) = Except.ok w ∧
        run_func_sequential f dur n = some (Except.ok (w, (List.range' 0 n).map dur))) ∧
    (∀ (k : ℕ) (e : ε), k < n → (∀ j, j < k → ∃ v, f j = Except.ok v) →
      f k = Except.error e →
      run_func_sequential f dur n = some (Except.error e)) := by
  constructor
  · intro h
    obtain ⟨m, rfl⟩ : ∃ m, n = m + 1 := ⟨n - 1, by omega⟩
    obtain ⟨w, hw, hrun⟩ := seqGo_all_ok f dur m 0 none [] (by
      intro j hj
      simpa using h j hj)
    refine ⟨w, by simpa using hw, ?_⟩
    simpa [run_func_sequential] using hrun
  · intro k e hk h he
    exact seqGo_first_error f dur e k n 0 none [] hk
      (by intro j hj; simpa using h j hj) (by simpa using he)

/-- Witness for C5's amended theorem: an always-succeeding target run twice
returns its value with 2 recorded durations. -/
theorem run_func_sequential_spec_witness :
    ∃ w, fOk3 (2 - 1) = Except.ok w ∧
      run_func_sequential fOk3 (fun _ => (0 : ℚ)) 2 =
        some (Except.ok (w, (List.range' 0 2).map fun _ => (0 : ℚ))) :=
  (run_func_sequential_spec fOk3 (fun _ => (0 : ℚ)) 2 (by norm_num)).1
    (fun _ _ => ⟨3, rfl⟩)

/-- C6: the wasted-time correction never produces a negative duration:
with `time_wasted = 0` the duration list is returned unchanged, and for a
non-empty list and `time_wasted > 0` the result maps each entry `x` to
`max (x - time_wasted / length) 0`, keeps the length, and every entry of the
result is non-negative. -/
theorem update_total_times_spec (times : List ℚ) (w : ℚ) :
    update_total_times times 0 = times ∧
    (0 < w → times ≠ [] →
      update_total_times times w =
        times.map (fun x => max (x - w / (times.length : ℚ)) 0) ∧
      (update_total_times times w).length = times.length ∧
      ∀ x ∈ update_total_times times w, 0 ≤ x) := by
  refine ⟨by simp [update_total_times], ?_⟩
  intro hw _hne
  have hw0 : w ≠ 0 := ne_of_gt hw
  refine ⟨by simp [update_total_times, hw0], update_total_times_length times w, ?_⟩
  intro x hx
  simp only [update_total_times, hw0, if_false, List.mem_map] at hx
  obtain ⟨y, -, rfl⟩ := hx
  exact le_max_right _ _

/-- Witness for C6 at the concrete list `[1, 2]` with one unit of wasted
time. -/
theorem update_total_times_spec_witness :
    update_total_times [1, 2] 0 = [1, 2] ∧
    (update_total_times [(1 : ℚ), 2] 1 =
       [(1 : ℚ), 2].map (fun x => max (x - 1 / (([(1 : ℚ), 2] : List ℚ).length : ℚ)) 0) ∧
     (update_total_times [(1 : ℚ), 2] 1).length = ([(1 : ℚ), 2] : List ℚ).length ∧
     ∀ x ∈ update_total_times [(1 : ℚ), 2] 1, 0 ≤ x) :=
  ⟨(update_total_times_spec [1, 2] 0).1,
   (update_total_times_spec [1, 2] 1).2 one_pos (by simp)⟩

/-- C7 counterexample: with 2 execution units and a requested run count of
5, the code reduces the run count to `max 1 (2 - 1) = 1`, not to the
claimed worker budget with a floor of two, `max 2 (2 - 1) = 2`. -/
theorem adjust_floor_of_two_counterexample :
    adjust_run_times_for_parallelism 2 5 = 1 ∧ (1 : ℕ) ≠ max 2 (2 - 1) := by
  decide

/-- C7 amended: when `cpu_count()` is truthy and the requested run count
exceeds the worker budget `max 1 (num_cores - 1)` (all execution units minus
one with a floor of ONE), the run count is reduced to that budget and the
advisory warning fires; and whenever the adjusted run count equals exactly
1, the concurrent runner raises the retryable error instead of executing. -/
theorem adjust_run_times_spec (nc rt : ℕ) :
    (nc ≠ 0 → max 1 (nc - 1) < rt →
      adjust_run_times_for_parallelism nc rt = max 1 (nc - 1) ∧
      adjust_warns nc rt = true) ∧
    (∀ {ε α : Type} (pf : Bool) (bt : ℚ) (g gT : ℕ → Except ε α),
      adjust_run_times_for_parallelism nc rt = 1 →
      run_func_concurrency nc pf bt g gT rt = Except.error ()) := by
  constructor
  · intro h0 hlt
    constructor
    · dsimp only [adjust_run_times_for_parallelism]
      rw [if_pos h0, if_pos hlt]
      split <;> omega
    · dsimp only [adjust_warns]
      rw [if_pos h0, if_pos hlt]
  · intro ε α pf bt g gT h1
    dsimp only [run_func_concurrency]
    rw [h1]
    simp

/-- Witness for C7's amended theorem at 2 execution units and requested run
count 5: the budget is `max 1 (2 - 1) = 1`, the advisory fires, and the
runner raises the retryable error. -/
theorem adjust_run_times_spec_witness :
    adjust_run_times_for_parallelism 2 5 = max 1 (2 - 1) ∧
    adjust_warns 2 5 = true ∧
    run_func_concurrency 2 false (0 : ℚ) fOk3 fOk3 5 = Except.error () :=
  ⟨((adjust_run_times_spec 2 5).1 (by decide) (by decide)).1,
   ((adjust_run_times_spec 2 5).1 (by decide) (by decide)).2,
   (adjust_run_times_spec 2 5).2 false 0 fOk3 fOk3 (by decide)⟩

/-- C8: whenever the wrapper's reporting step runs and takes the aggregate
(multi-value) branch — which happens exactly when the reported
`run_times > 1` — the duration list handed to the aggregate printer (the
argument of the standard-deviation statistic) has length at least 2, on
every execution path: sequential loop, successful concurrent run, and
fallback after concurrent failure. -/
theorem report_aggregate_needs_two_samples (env : Env) (func : FuncId) (cfg : Config)
    (f : ℕ → Except ε α) (st : GuardState) (r : ReportData)
    (hr : (tempit_wrapper env func cfg f st).report = some r)
    (hb : report_branch r.runTimes = ReportBranch.several) :
    2 ≤ r.times.length := by
  dsimp only [tempit_wrapper] at hr
  split at hr
  · split at hr <;> exact Option.noConfusion hr
  · split at hr
    · exact Option.noConfusion hr
    · exact Option.noConfusion hr
    · rename_i v times heq
      split at hr
      · have hrr := Option.some.inj hr
        subst hrr
        dsimp only [report_branch] at hb
        split at hb
        · exact absurd hb (by simp)
        · rename_i hgt
          have h2 : 1 < (check_is_recursive_func func cfg.runTimes cfg.concurrent
              st.stack).runTimes := by omega
          have hlen := function_execution_ok_length env f _ _ v times h2 heq
          dsimp only
          rw [update_total_times_length]
          exact hlen
      · exact Option.noConfusion hr

/-- Witness for C8: run count 3, sequential path, report produced with a
3-sample duration list. -/
theorem report_aggregate_needs_two_samples_witness :
    2 ≤ (ReportData.mk 3 true [1, 1, 1]).times.length :=
  report_aggregate_needs_two_samples envNoCores 0 ⟨3, false, true⟩ fOk3 ⟨[], 0⟩
    ⟨3, true, [1, 1, 1]⟩ (by decide) (by decide)

/-- C9: the duration formatter selects its tier at the literal thresholds:
the claim's example inputs land in the claimed tiers with the claimed
strings, and the boundary inputs 0.001, 0.1, 1, 60, 3600 and 86400 land in
the next tier up (the comparisons are strict). -/
theorem format_time_tier_examples :
    format_time (1 / 2000) = "500.0000µs" ∧
    format_time (825674 / 10000000) = "82.5674ms" ∧
    format_time (1 / 4) = "0.250s" ∧
    format_time (654321 / 10000) = "01m:05s.432ms" ∧
    format_time (36654321 / 10000) = "01h:01m:05s.432ms" ∧
    format_time (864654321 / 10000) = "1d:00h:01m:05s.432ms" ∧
    format_time (1 / 1000) = "1.0000ms" ∧
    format_time (1 / 10) = "0.100s" ∧
    format_time 1 = "1.00s" ∧
    format_time 60 = "01m:00s.0ms" ∧
    format_time 3600 = "01h:00m:00s.0ms" ∧
    format_time 86400 = "1d:00h:00m:00s.0ms" := by
  refine ⟨?_, ?_, ?_, ?_, ?_, ?_, ?_, ?_, ?_, ?_, ?_, ?_⟩
  · unfold format_time
    rw [if_pos (show (1 : ℚ) / 2000 < 1 / 1000 by norm_num)]
    rw [show (1 : ℚ) / 2000 * 1000000 = 500 by norm_num]
    rw [formatFixed_eq 500 4 5000000 (by norm_num) (by norm_num)]
    rfl
  · unfold format_time
    rw [if_neg (show ¬((825674 : ℚ) / 10000000 < 1 / 1000) by norm_num)]
    rw [if_pos (show (825674 : ℚ) / 10000000 < 1 / 10 by norm_num)]
    rw [show (825674 : ℚ) / 10000000 * 1000 = 825674 / 10000 by norm_num]
    rw [formatFixed_eq (825674 / 10000) 4 825674 (by norm_num) (by norm_num)]
    rfl
  · unfold format_time
    rw [if_neg (show ¬((1 : ℚ) / 4 < 1 / 1000) by norm_num)]
    rw [if_neg (show ¬((1 : ℚ) / 4 < 1 / 10) by norm_num)]
    rw [if_pos (show (1 : ℚ) / 4 < 1 by norm_num)]
    rw [formatFixed_eq (1 / 4) 3 250 (by norm_num) (by norm_num)]
    rfl
  · unfold format_time
    rw [if_neg (show ¬((654321 : ℚ) / 10000 < 1 / 1000) by norm_num)]
    rw [if_neg (show ¬((654321 : ℚ) / 10000 < 1 / 10) by norm_num)]
    rw [if_neg (show ¬((654321 : ℚ) / 10000 < 1) by norm_num)]
    rw [if_neg (show ¬((654321 : ℚ) / 10000 < 60) by norm_num)]
    rw [if_pos (show (654321 : ℚ) / 10000 < 3600 by norm_num)]
    rw [show ⌊(654321 : ℚ) / 10000 / 60⌋ = 1 by norm_num [Int.floor_eq_iff]]
    rw [show (654321 : ℚ) / 10000 - 60 * ((1 : ℤ) : ℚ) = 54321 / 10000 by
      push_cast; norm_num]
    rw [secondsPart_eq (54321 / 10000) 5 432 (4321 / 10) (by norm_num) (by norm_num)
      (by push_cast; norm_num) (by norm_num) (by norm_num)]
    rfl
  · unfold format_time
    rw [if_neg (show ¬((36654321 : ℚ) / 10000 < 1 / 1000) by norm_num)]
    rw [if_neg (show ¬((36654321 : ℚ) / 10000 < 1 / 10) by norm_num)]
    rw [if_neg (show ¬((36654321 : ℚ) / 10000 < 1) by norm_num)]
    rw [if_neg (show ¬((36654321 : ℚ) / 10000 < 60) by norm_num)]
    rw [if_neg (show ¬((36654321 : ℚ) / 10000 < 3600) by norm_num)]
    rw [if_pos (show (36654321 : ℚ) / 10000 < 86400 by norm_num)]
    rw [show ⌊(36654321 : ℚ) / 10000 / 3600⌋ = 1 by norm_num [Int.floor_eq_iff]]
    rw [show (36654321 : ℚ) / 10000 - 3600 * ((1 : ℤ) : ℚ) = 654321 / 10000 by
      push_cast; norm_num]
    rw [show ⌊(654321 : ℚ) / 10000 / 60⌋ = 1 by norm_num [Int.floor_eq_iff]]
    rw [show (654321 : ℚ) / 10000 - 60 * ((1 : ℤ) : ℚ) = 54321 / 10000 by
      push_cast; norm_num]
    rw [secondsPart_eq (54321 / 10000) 5 432 (4321 / 10) (by norm_num) (by norm_num)
      (by push_cast; norm_num) (by norm_num) (by norm_num)]
    rfl
  · unfold format_time
    rw [if_neg (show ¬((864654321 : ℚ) / 10000 < 1 / 1000) by norm_num)]
    rw [if_neg (show ¬((864654321 : ℚ) / 10000 < 1 / 10) by norm_num)]
    rw [if_neg (show ¬((864654321 : ℚ) / 10000 < 1) by norm_num)]
    rw [if_neg (show ¬((864654321 : ℚ) / 10000 < 60) by norm_num)]
    rw [if_neg (show ¬((864654321 : ℚ) / 10000 < 3600) by norm_num)]
    rw [if_neg (show ¬((864654321 : ℚ) / 10000 < 86400) by norm_num)]
    rw [show ⌊(864654321 : ℚ) / 10000 / 86400⌋ = 1 by norm_num [Int.floor_eq_iff]]
    rw [show (864654321 : ℚ) / 10000 - 86400 * ((1 : ℤ) : ℚ) = 654321 / 10000 by
      push_cast; norm_num]
    rw [show ⌊(654321 : ℚ) / 10000 / 3600⌋ = 0 by norm_num [Int.floor_eq_iff]]
    rw [show (654321 : ℚ) / 10000 - 3600 * ((0 : ℤ) : ℚ) = 654321 / 10000 by
      push_cast; norm_num]
    rw [show ⌊(654321 : ℚ) / 10000 / 60⌋ = 1 by norm_num [Int.floor_eq_iff]]
    rw [show (654321 : ℚ) / 10000 - 60 * ((1 : ℤ) : ℚ) = 54321 / 10000 by
      push_cast; norm_num]
    rw [secondsPart_eq (54321 / 10000) 5 432 (4321 / 10) (by norm_num) (by norm_num)
      (by push_cast; norm_num) (by norm_num) (by norm_num)]
    rfl
  · unfold format_time
    rw [if_neg (show ¬((1 : ℚ) / 1000 < 1 / 1000) by norm_num)]
    rw [if_pos (show (1 : ℚ) / 1000 < 1 / 10 by norm_num)]
    rw [show (1 : ℚ) / 1000 * 1000 = 1 by norm_num]
    rw [formatFixed_eq 1 4 10000 (by norm_num) (by norm_num)]
    rfl
  · unfold format_time
    rw [if_neg (show ¬((1 : ℚ) / 10 < 1 / 1000) by norm_num)]
    rw [if_neg (show ¬((1 : ℚ) / 10 < 1 / 10) by norm_num)]
    rw [if_pos (show (1 : ℚ) / 10 < 1 by norm_num)]
    rw [formatFixed_eq (1 / 10) 3 100 (by norm_num) (by norm_num)]
    rfl
  · unfold format_time
    rw [if_neg (show ¬((1 : ℚ) < 1 / 1000) by norm_num)]
    rw [if_neg (show ¬((1 : ℚ) < 1 / 10) by norm_num)]
    rw [if_neg (show ¬((1 : ℚ) < 1) by norm_num)]
    rw [if_pos (show (1 : ℚ) < 60 by norm_num)]
    rw [formatFixed_eq 1 2 100 (by norm_num) (by norm_num)]
    rfl
  · unfold format_time
    rw [if_neg (show ¬((60 : ℚ) < 1 / 1000) by norm_num)]
    rw [if_neg (show ¬((60 : ℚ) < 1 / 10) by norm_num)]
    rw [if_neg (show ¬((60 : ℚ) < 1) by norm_num)]
    rw [if_neg (show ¬((60 : ℚ) < 60) by norm_num)]
    rw [if_pos (show (60 : ℚ) < 3600 by norm_num)]
    rw [show ⌊(60 : ℚ) / 60⌋ = 1 by norm_num [Int.floor_eq_iff]]
    rw [show (60 : ℚ) - 60 * ((1 : ℤ) : ℚ) = 0 by push_cast; norm_num]
    rw [secondsPart_eq 0 0 0 0 (by norm_num) (by norm_num) (by push_cast; norm_num)
      (by norm_num) (by norm_num)]
    rfl
  · unfold format_time
    rw [if_neg (show ¬((3600 : ℚ) < 1 / 1000) by norm_num)]
    rw [if_neg (show ¬((3600 : ℚ) < 1 / 10) by norm_num)]
    rw [if_neg (show ¬((3600 : ℚ) < 1) by norm_num)]
    rw [if_neg (show ¬((3600 : ℚ) < 60) by norm_num)]
    rw [if_neg (show ¬((3600 : ℚ) < 3600) by norm_num)]
    rw [if_pos (show (3600 : ℚ) < 86400 by norm_num)]
    rw [show ⌊(3600 : ℚ) / 3600⌋ = 1 by norm_num [Int.floor_eq_iff]]
    rw [show (3600 : ℚ) - 3600 * ((1 : ℤ) : ℚ) = 0 by push_cast; norm_num]
    rw [show ⌊(0 : ℚ) / 60⌋ = 0 by norm_num]
    rw [show (0 : ℚ) - 60 * ((0 : ℤ) : ℚ) = 0 by push_cast; norm_num]
    rw [secondsPart_eq 0 0 0 0 (by norm_num) (by norm_num) (by push_cast; norm_num)
      (by norm_num) (by norm_num)]
    rfl
  · unfold format_time
    rw [if_neg (show ¬((86400 : ℚ) < 1 / 1000) by norm_num)]
    rw [if_neg (show ¬((86400 : ℚ) < 1 / 10) by norm_num)]
    rw [if_neg (show ¬((86400 : ℚ) < 1) by norm_num)]
    rw [if_neg (show ¬((86400 : ℚ) < 60) by norm_num)]
    rw [if_neg (show ¬((86400 : ℚ) < 3600) by norm_num)]
    rw [if_neg (show ¬((86400 : ℚ) < 86400) by norm_num)]
    rw [show ⌊(86400 : ℚ) / 86400⌋ = 1 by norm_num [Int.floor_eq_iff]]
    rw [show (86400 : ℚ) - 86400 * ((1 : ℤ) : ℚ) = 0 by push_cast; norm_num]
    rw [show ⌊(0 : ℚ) / 3600⌋ = 0 by norm_num]
    rw [show (0 : ℚ) - 3600 * ((0 : ℤ) : ℚ) = 0 by push_cast; norm_num]
    rw [show ⌊(0 : ℚ) / 60⌋ = 0 by norm_num]
    rw [show (0 : ℚ) - 60 * ((0 : ℤ) : ℚ) = 0 by push_cast; norm_num]
    rw [secondsPart_eq 0 0 0 0 (by norm_num) (by norm_num) (by push_cast; norm_num)
      (by norm_num) (by norm_num)]
    rfl

/-- C10: the global kill-switch is consulted only at decoration time: with
`ACTIVE` false at decoration, `tempit` returns the original callable
unmodified; and the wrapper built when it was true is insensitive to the
flag's value at call time, so flipping `ACTIVE` off later does not disable
the instrumentation of an already-decorated function. -/
theorem kill_switch_read_at_decoration_only {ε α : Type} (func : FuncId) (cfg : Config)
    (isClass : Bool) (f : ℕ → Except ε α) :
    tempit false isClass func cfg f = Decorated.original f ∧
    ∀ (env : Env) (st : GuardState) (a b : Bool),
      tempit_wrapper { env with activeNow := a } func cfg f st =
        tempit_wrapper { env with activeNow := b } func cfg f st := by
  exact ⟨rfl, fun env st a b => rfl⟩

end Tempit
